import Mathlib

/-!
Verification of the contact-extraction core of `arpeggio_visualizer.py`:
the selection parser (`parse_selection`, lines 60-77) and the contact
extractor (`parse_json_contacts`, lines 360-454).

Modelling conventions:
* Python strings are `List Char` (`PyStr`), so that stripping/splitting
  lemmas can be proved by list induction.
* Python `None`-able values are `Option`.
* Python exceptions (`ValueError` from tuple unpacking and from `int()`)
  are `Except String`.
* The floating-point `distance` field is only ever copied, never computed
  with, so it is modelled as `Rat` (default `0` mirrors the `0.0` default).
-/

/-- Python strings, modelled as lists of characters. -/
abbrev PyStr := List Char

/-- `s.startswith(c)` for a one-character argument. -/
def startsWithChar (c : Char) : PyStr → Bool
  | [] => false
  | x :: _ => x = c

/-- `s.endswith(c)` for a one-character argument. -/
def endsWithChar (c : Char) (s : PyStr) : Bool :=
  startsWithChar c s.reverse

/-- `s.strip(c)`: remove every leading and every trailing occurrence of `c`. -/
def pyStrip (c : Char) (s : PyStr) : PyStr :=
  ((s.dropWhile (fun x => x = c)).reverse.dropWhile (fun x => x = c)).reverse

/-- `s.split(c)` with Python semantics for a one-character separator:
the result is always non-empty and empty fields are preserved — splitting
the empty string gives one empty field, splitting a lone separator gives
two empty fields. -/
def pySplit (c : Char) : PyStr → List PyStr
  | [] => [[]]
  | x :: xs =>
    if x = c then [] :: pySplit c xs
    else
      match pySplit c xs with
      | [] => [[x]]
      | p :: ps => (x :: p) :: ps

/-- `parse_selection` (arpeggio_visualizer.py, lines 60-77).
Returns `(chain, resid)`; a `ValueError` from the tuple unpacking
`chain, resid = selection_str.split(':')` is an `Except.error`. -/
def parse_selection (s : PyStr) : Except String (Option PyStr × Option PyStr) :=
  if startsWithChar '/' s && endsWithChar '/' s then
    -- Format: /A/10/
    let parts := pySplit '/' (pyStrip '/' s)
    if 2 ≤ parts.length then
      let chain := if parts.getD 0 [] ≠ [] then parts.getD 0 [] else ("A".toList)
      let resid := if parts.getD 1 [] ≠ [] then some (parts.getD 1 []) else none
      .ok (some chain, resid)
    else
      -- the slash branch was taken but produced < 2 parts: the Python
      -- function falls through to the final `return None, None`
      .ok (none, none)
  else if ':' ∈ s then
    -- Format: A:10 ; unpacking raises ValueError unless exactly two parts
    match pySplit ':' s with
    | [chain, resid] => .ok (some chain, some resid)
    | _ => .error ("ValueError: unpacking split result")
  else
    -- Assume it is just a residue number
    .ok (none, some s)

/-- The Python built-in `int()` on a string, modelled on optionally signed
digit strings; anything else raises `ValueError`. -/
def pyInt (s : PyStr) : Except String Int :=
  match s with
  | '-' :: rest =>
    if rest ≠ [] && rest.all (fun c => c.isDigit) then
      .ok (-(rest.foldl (fun a c => a * 10 + (c.toNat - 48)) 0 : Nat))
    else .error ("ValueError: invalid literal for int")
  | '+' :: rest =>
    if rest ≠ [] && rest.all (fun c => c.isDigit) then
      .ok (rest.foldl (fun a c => a * 10 + (c.toNat - 48)) 0 : Nat)
    else .error ("ValueError: invalid literal for int")
  | _ =>
    if s ≠ [] && s.all (fun c => c.isDigit) then
      .ok (s.foldl (fun a c => a * 10 + (c.toNat - 48)) 0 : Nat)
    else .error ("ValueError: invalid literal for int")

/-- One endpoint of an interaction record: the dict behind the `bgn` / `end`
keys. Each field is `Option`al because the code reads it with `.get` and an
explicit default (chain `A`, residue `1`, atom name `CA`). -/
structure Atom where
  auth_asym_id : Option PyStr
  auth_seq_id : Option Int
  auth_atom_id : Option PyStr
deriving DecidableEq

/-- One row of the arpeggio JSON output, as read by `parse_json_contacts`:
`type` read with `contact.get`, `bgn` / `end` read with an empty-dict
default (a missing dict is the all-`none` `Atom`), the label list read with
an empty-list default, and `distance` read with default `0.0`. -/
structure InteractionRecord where
  type : Option PyStr
  bgn : Atom
  end_ : Atom
  contact : List PyStr
  distance : Option Rat
deriving DecidableEq

/-- The dict appended to `contacts` at lines 445-452. -/
structure ContactDescriptor where
  bgn_sel : PyStr
  end_sel : PyStr
  interaction_type : PyStr
  dist_flag : PyStr
  original_type : PyStr
  distance : Rat
deriving DecidableEq

/-- The selector expression of lines 409-410: the f-string
`chain ... and resi ... and name ...` over the three endpoint fields with
defaults `A`, `1` and `CA`. -/
def atomSel (a : Atom) : PyStr :=
  ("chain ".toList) ++ a.auth_asym_id.getD ("A".toList)
    ++ (" and resi ".toList) ++ (toString (a.auth_seq_id.getD 1)).toList
    ++ (" and name ".toList) ++ a.auth_atom_id.getD ("CA".toList)

/-- The `dist_flag` loop of lines 416-432: walk the label list in order and
stop at the first label that is one of the five recognized flags
(each branch of the `if`/`elif` chain ends in `break`); default `proximal`. -/
def distFlag : List PyStr → PyStr
  | [] => ("proximal".toList)
  | l :: ls =>
    if l = ("clash".toList) then ("clash".toList)
    else if l = ("covalent".toList) then ("covalent".toList)
    else if l = ("vdw_clash".toList) then ("vdwclash".toList)
    else if l = ("vdw".toList) then ("vdw".toList)
    else if l = ("proximal".toList) then ("proximal".toList)
    else distFlag ls

/-- The `contact_type_mapping` dict of lines 435-441, as the ordered
key-value list written in the source. -/
def contact_type_pairs : List (PyStr × PyStr) :=
  [("clash", "clash"), ("covalent", "covalent"), ("vdw_clash", "vdwclash"),
    ("vdw", "vdw"), ("proximal", "proximal"), ("hbond", "hbond"),
    ("weak_hbond", "weakhbond"), ("xbond", "xbond"), ("ionic", "ionic"),
    ("metal", "metalcomplex"), ("aromatic", "aromatic"),
    ("hydrophobic", "hydrophobic"), ("carbonyl", "carbonyl"),
    ("polar", "polar"), ("weak_polar", "weakpolar")].map
    (fun p => (p.1.toList, p.2.toList))

/-- The lookup `contact_type_mapping.get` with default `undefined` (line 444). -/
def contact_type_mapping (ct : PyStr) : PyStr :=
  (contact_type_pairs.lookup ct).getD ("undefined".toList)

/-- The parsed selection filter of lines 370-377. `none` means no active
filter (Python `selection` was `None` or the empty string, both falsy);
`some (filter_chain, filter_resid)` carries `filter_chain : Option PyStr`
(`none` when the selection had no colon) and the integer `filter_resid`.
`int()` failures and the tuple-unpacking `ValueError` propagate. -/
def parseFilter (selection : Option PyStr) : Except String (Option (Option PyStr × Int)) :=
  match selection with
  | none => .ok none
  | some s =>
    if s = [] then .ok none
    else if ':' ∈ s then
      match pySplit ':' s with
      | [c, r] => (pyInt r).map (fun ri => some (some c, ri))
      | _ => .error ("ValueError: unpacking split result")
    else
      (pyInt s).map (fun ri => some (none, ri))

/-- The filter test for one endpoint (lines 398-403): when `filter_chain` is truthy
(a non-empty string) the chain and the residue must both match; otherwise only
the residue must match. -/
def sideMatches (fc : Option PyStr) (fr : Int) (chain : PyStr) (resid : Int) : Bool :=
  match fc with
  | some c => if c ≠ [] then chain = c && resid = fr else resid = fr
  | none => resid = fr

/-- Lines 389-406: with no active filter every record passes; with an active
filter the record is kept iff the begin or the end endpoint matches, reading
the chain and residue of each endpoint with defaults `A` and `1`. -/
def recordKept (fs : Option (Option PyStr × Int)) (r : InteractionRecord) : Bool :=
  match fs with
  | none => true
  | some (fc, fr) =>
    sideMatches fc fr (r.bgn.auth_asym_id.getD ("A".toList)) (r.bgn.auth_seq_id.getD 1)
      || sideMatches fc fr (r.end_.auth_asym_id.getD ("A".toList)) (r.end_.auth_seq_id.getD 1)

/-- The loop body of lines 381-452 for one record: skip non-`atom-atom`
records, apply the filter, then emit one descriptor per label in
the label list, all sharing `bgn_sel`, `end_sel`, `dist_flag`
and `distance`. -/
def processRecord (fs : Option (Option PyStr × Int)) (r : InteractionRecord) :
    List ContactDescriptor :=
  if r.type ≠ some ("atom-atom".toList) then []
  else if !recordKept fs r then []
  else
    r.contact.map (fun ct =>
      { bgn_sel := atomSel r.bgn
        end_sel := atomSel r.end_
        interaction_type := contact_type_mapping ct
        dist_flag := distFlag r.contact
        original_type := ct
        distance := r.distance.getD 0 })

/-- `parse_json_contacts` (lines 360-454). The file system is modelled by
`source : Option (List InteractionRecord)`: `none` is a missing JSON file
(the existence check of line 362 fails), `some data` the parsed document. The
first component of the result collects the printed diagnostics (the real
message interpolates the file path). -/
def parse_json_contacts (source : Option (List InteractionRecord))
    (selection : Option PyStr) :
    List String × Except String (List ContactDescriptor) :=
  match source with
  | none => (["Warning: JSON file not found"], .ok [])
  | some data =>
    ([],
      match parseFilter selection with
      | .error e => .error e
      | .ok fs => .ok (data.flatMap (processRecord fs)))

example : parse_selection ("/A/10/".toList) = .ok (some ("A".toList), some ("10".toList)) := by rfl
example : parse_selection ("//10/".toList) = .ok (none, none) := by rfl
example : parse_selection ("/A//".toList) = .ok (none, none) := by rfl
example : parse_selection ("A:10".toList) = .ok (some ("A".toList), some ("10".toList)) := by rfl
example : parse_selection ("A:1:0".toList) = .error ("ValueError: unpacking split result") := by rfl
example : parse_selection ("10".toList) = .ok (none, some ("10".toList)) := by rfl

/-- The image of `contact_type_mapping` together with the `undefined`
sentinel: the closed enumeration of interaction types (spec §3 Glossary). -/
def allowedInteractionTypes : List PyStr :=
  ["clash", "covalent", "vdwclash", "vdw", "proximal", "hbond", "weakhbond",
    "xbond", "ionic", "metalcomplex", "aromatic", "hydrophobic", "carbonyl",
    "polar", "weakpolar", "undefined"].map String.toList

/-- The flag a single label contributes in the lines 416-432 loop, if any:
the five recognized labels with their renamings, `none` otherwise. -/
def recognizedFlag? (l : PyStr) : Option PyStr :=
  if l = ("clash".toList) then some ("clash".toList)
  else if l = ("covalent".toList) then some ("covalent".toList)
  else if l = ("vdw_clash".toList) then some ("vdwclash".toList)
  else if l = ("vdw".toList) then some ("vdw".toList)
  else if l = ("proximal".toList) then some ("proximal".toList)
  else none

example :
    (parse_json_contacts
      (some [{ type := some ("atom-atom".toList)
               bgn := { auth_asym_id := some ("A".toList), auth_seq_id := some 10,
                        auth_atom_id := some ("N".toList) }
               end_ := { auth_asym_id := some ("A".toList), auth_seq_id := some 15,
                         auth_atom_id := some ("CA".toList) }
               contact := [("proximal".toList), ("clash".toList)]
               distance := some 3 }])
      none).2
    = .ok
      [{ bgn_sel := ("chain A and resi 10 and name N".toList)
         end_sel := ("chain A and resi 15 and name CA".toList)
         interaction_type := ("proximal".toList)
         dist_flag := ("proximal".toList)
         original_type := ("proximal".toList)
         distance := 3 },
       { bgn_sel := ("chain A and resi 10 and name N".toList)
         end_sel := ("chain A and resi 15 and name CA".toList)
         interaction_type := ("clash".toList)
         dist_flag := ("proximal".toList)
         original_type := ("clash".toList)
         distance := 3 }] := by rfl

example :
    (parse_json_contacts
      (some [{ type := some ("atom-atom".toList)
               bgn := { auth_asym_id := none, auth_seq_id := none, auth_atom_id := none }
               end_ := { auth_asym_id := some ("B".toList), auth_seq_id := some 99,
                         auth_atom_id := some ("CB".toList) }
               contact := [("foo".toList)]
               distance := none }])
      (some ("A:1".toList))).2
    = .ok
      [{ bgn_sel := ("chain A and resi 1 and name CA".toList)
         end_sel := ("chain B and resi 99 and name CB".toList)
         interaction_type := ("undefined".toList)
         dist_flag := ("proximal".toList)
         original_type := ("foo".toList)
         distance := 0 }] := by rfl

/-! ## Helper lemmas about the string primitives -/

theorem pySplit_ne_nil (c : Char) (s : PyStr) : pySplit c s ≠ [] := by
  induction s with
  | nil => simp [pySplit]
  | cons x xs ih =>
    simp only [pySplit]
    split
    · simp
    · cases h : pySplit c xs <;> simp

theorem pySplit_cons_ne (c x : Char) (xs : PyStr) (h : ¬(x = c)) :
    ∃ p ps, pySplit c xs = p :: ps ∧ pySplit c (x :: xs) = (x :: p) :: ps := by
  obtain ⟨p, ps, hpp⟩ := List.exists_cons_of_ne_nil (pySplit_ne_nil c xs)
  exact ⟨p, ps, hpp, by simp [pySplit, h, hpp]⟩

theorem pySplit_not_mem (c : Char) (s : PyStr) (h : c ∉ s) : pySplit c s = [s] := by
  induction s with
  | nil => rfl
  | cons x xs ih =>
    simp only [List.mem_cons, not_or] at h
    have hx : ¬(x = c) := fun hh => h.1 hh.symm
    obtain ⟨p, ps, hpp, hcons⟩ := pySplit_cons_ne c x xs hx
    rw [ih h.2] at hpp
    injection hpp with h1 h2
    rw [hcons, ← h1, ← h2]

theorem pySplit_append (c : Char) (X rest : PyStr) (hX : c ∉ X) :
    pySplit c (X ++ c :: rest) = X :: pySplit c rest := by
  induction X with
  | nil => simp [pySplit]
  | cons x X' ih =>
    simp only [List.mem_cons, not_or] at hX
    have hx : ¬(x = c) := fun hh => hX.1 hh.symm
    obtain ⟨p, ps, hpp, hcons⟩ := pySplit_cons_ne c x (X' ++ c :: rest) hx
    rw [ih hX.2] at hpp
    injection hpp with h1 h2
    rw [List.cons_append, hcons, ← h1, ← h2]

theorem dropWhile_cons_self (c : Char) (rest : PyStr) :
    List.dropWhile (fun y => y = c) (c :: rest) = List.dropWhile (fun y => y = c) rest := by
  simp [List.dropWhile_cons]

theorem dropWhile_ne (c : Char) (X rest : PyStr) (hne : X ≠ []) (hmem : c ∉ X) :
    List.dropWhile (fun y => y = c) (X ++ rest) = X ++ rest := by
  obtain ⟨x, X', rfl⟩ := List.exists_cons_of_ne_nil hne
  have hx : ¬(x = c) := fun h => hmem (h ▸ List.mem_cons_self x X')
  simp [List.dropWhile_cons, hx]

theorem dropWhile_ne_self (c : Char) (X : PyStr) (hne : X ≠ []) (hmem : c ∉ X) :
    List.dropWhile (fun y => y = c) X = X := by
  simpa using dropWhile_ne c X [] hne hmem

theorem pyStrip_frame (X Y : PyStr) (hX : X ≠ []) (hXc : '/' ∉ X)
    (hY : Y ≠ []) (hYc : '/' ∉ Y) :
    pyStrip '/' ('/' :: (X ++ '/' :: (Y ++ ['/']))) = X ++ '/' :: Y := by
  unfold pyStrip
  rw [dropWhile_cons_self, dropWhile_ne _ X _ hX hXc]
  have hrev : (X ++ '/' :: (Y ++ ['/'])).reverse = '/' :: (Y.reverse ++ '/' :: X.reverse) := by
    simp
  rw [hrev, dropWhile_cons_self,
    dropWhile_ne _ Y.reverse _ (by simpa using hY) (by simpa using hYc)]
  simp

theorem pyStrip_frame_left_empty (Y : PyStr) (hY : Y ≠ []) (hYc : '/' ∉ Y) :
    pyStrip '/' ('/' :: ([] ++ '/' :: (Y ++ ['/']))) = Y := by
  unfold pyStrip
  rw [List.nil_append, dropWhile_cons_self, dropWhile_cons_self,
    dropWhile_ne _ Y _ hY hYc]
  have hrev : (Y ++ ['/']).reverse = '/' :: Y.reverse := by simp
  rw [hrev, dropWhile_cons_self,
    dropWhile_ne_self _ Y.reverse (by simpa using hY) (by simpa using hYc)]
  simp

theorem pyStrip_frame_right_empty (X : PyStr) (hX : X ≠ []) (hXc : '/' ∉ X) :
    pyStrip '/' ('/' :: (X ++ '/' :: ([] ++ ['/']))) = X := by
  unfold pyStrip
  rw [List.nil_append, dropWhile_cons_self, dropWhile_ne _ X _ hX hXc]
  have hrev : (X ++ ['/', '/']).reverse = '/' :: ('/' :: X.reverse) := by simp
  rw [hrev, dropWhile_cons_self, dropWhile_cons_self,
    dropWhile_ne_self _ X.reverse (by simpa using hX) (by simpa using hXc)]
  simp

/-! ## Claim theorems -/

/-- C1 (counterexample): the claim predicts that a record whose
`contactLabels` are `["proximal","clash"]` gets `distanceFlag` `"clash"`,
but the extractor emits both of its descriptors with `dist_flag`
`"proximal"`: the loop of lines 416-432 breaks at the first label in list
order that is one of the five recognized flags, not at the
highest-priority one. -/
theorem distFlag_priority_counterexample :
    (parse_json_contacts
      (some [{ type := some ("atom-atom".toList)
               bgn := { auth_asym_id := some ("A".toList), auth_seq_id := some 10,
                        auth_atom_id := some ("N".toList) }
               end_ := { auth_asym_id := some ("A".toList), auth_seq_id := some 15,
                         auth_atom_id := some ("CA".toList) }
               contact := [("proximal".toList), ("clash".toList)]
               distance := some 3 }])
      none).2
    = .ok
      [{ bgn_sel := ("chain A and resi 10 and name N".toList)
         end_sel := ("chain A and resi 15 and name CA".toList)
         interaction_type := ("proximal".toList)
         dist_flag := ("proximal".toList)
         original_type := ("proximal".toList)
         distance := 3 },
       { bgn_sel := ("chain A and resi 10 and name N".toList)
         end_sel := ("chain A and resi 15 and name CA".toList)
         interaction_type := ("clash".toList)
         dist_flag := ("proximal".toList)
         original_type := ("clash".toList)
         distance := 3 }]
    ∧ (("proximal".toList) : PyStr) ≠ ("clash".toList) :=
  ⟨by rfl, by decide⟩

/-- C1 (amended): the extractor determines `distanceFlag` by scanning
`contactLabels` in list order; the first label that is one of clash,
covalent, vdw_clash (giving vdwclash), vdw, proximal wins, and proximal is
the default when none of these is present; in particular a record whose
`contactLabels` are `["proximal","clash"]` gets `distanceFlag`
`"proximal"`. -/
theorem distFlag_first_recognized_label :
    (∀ ls : List PyStr,
      distFlag ls = (ls.findSome? recognizedFlag?).getD ("proximal".toList))
    ∧ distFlag [("proximal".toList), ("clash".toList)] = ("proximal".toList) := by
  constructor
  · intro ls
    induction ls with
    | nil => rfl
    | cons l ls ih =>
      simp only [distFlag, List.findSome?_cons, recognizedFlag?]
      split_ifs <;> simp [ih]
  · rfl

/-- C4: for every slash-framed selection string whose stripped, slash-split
remainder has fewer than two parts, `parse_selection` falls through to the
final `return None, None` — a silent no-filter result, not an error. -/
theorem parse_selection_slash_short_fallback (s : PyStr)
    (h1 : startsWithChar '/' s = true) (h2 : endsWithChar '/' s = true)
    (h3 : (pySplit '/' (pyStrip '/' s)).length < 2) :
    parse_selection s = .ok (none, none) := by
  unfold parse_selection
  rw [h1, h2]
  simp only [Bool.and_self, if_true]
  rw [if_neg (by omega)]

/-- C4 witness: the concrete slash-framed string `"/A/"` strips and splits
to the single part `["A"]` and parses to `(None, None)`. -/
theorem parse_selection_slash_short_fallback_witness :
    startsWithChar '/' ("/A/".toList) = true
    ∧ endsWithChar '/' ("/A/".toList) = true
    ∧ (pySplit '/' (pyStrip '/' ("/A/".toList))).length < 2
    ∧ parse_selection ("/A/".toList) = .ok (none, none) :=
  ⟨by decide, by decide, by decide,
    parse_selection_slash_short_fallback _ (by decide) (by decide) (by decide)⟩

/-- C5: when the input JSON file does not exist, `parse_json_contacts`
prints a warning diagnostic and returns the empty contact list; it never
raises for a merely missing source, whatever the selection argument is. -/
theorem parse_json_contacts_missing_source (sel : Option PyStr) :
    parse_json_contacts none sel = (["Warning: JSON file not found"], .ok []) :=
  rfl

/-- C6: a record whose `type` discriminator is not `atom-atom` is skipped:
it contributes no `ContactDescriptor`, regardless of the filter, and a
document all of whose records have a different `type` yields the empty
contact list under any selection. -/
theorem processRecord_skips_non_atom_atom :
    (∀ (fs : Option (Option PyStr × Int)) (r : InteractionRecord),
      r.type ≠ some ("atom-atom".toList) → processRecord fs r = [])
    ∧ (∀ (data : List InteractionRecord) (sel : Option PyStr)
        (cs : List ContactDescriptor),
        (parse_json_contacts (some data) sel).2 = .ok cs →
        (∀ r ∈ data, r.type ≠ some ("atom-atom".toList)) → cs = []) := by
  constructor
  · intro fs r h
    unfold processRecord
    rw [if_pos h]
  · intro data sel cs hok hall
    simp only [parse_json_contacts] at hok
    rcases hpf : parseFilter sel with e | fs <;> rw [hpf] at hok
    · cases hok
    · injection hok with h1
      subst h1
      rw [List.flatMap_eq_nil_iff]
      intro r hr
      unfold processRecord
      rw [if_pos (hall r hr)]

/-- C6 witness: a concrete `atom-pi` record is skipped under the empty
filter, and a one-record document of it yields the empty list. -/
theorem processRecord_skips_non_atom_atom_witness :
    processRecord none
      { type := some ("atom-pi".toList)
        bgn := { auth_asym_id := none, auth_seq_id := none, auth_atom_id := none }
        end_ := { auth_asym_id := none, auth_seq_id := none, auth_atom_id := none }
        contact := [("hbond".toList)]
        distance := none } = [] :=
  processRecord_skips_non_atom_atom.1 none _ (by decide)

/-- C7: an atom-atom record that passes the filter and has `N` labels in
`contactLabels` yields exactly `N` descriptors, one per label in label
order, all sharing the same begin/end selectors, distance and
`dist_flag`, each carrying the mapped `interaction_type` of its own label
(the whole output is `data.flatMap (processRecord fs)`, so record order
is preserved as well). -/
theorem processRecord_one_descriptor_per_label
    (fs : Option (Option PyStr × Int)) (r : InteractionRecord)
    (htype : r.type = some ("atom-atom".toList))
    (hkept : recordKept fs r = true) :
    (processRecord fs r).length = r.contact.length
    ∧ ∀ (i : Nat) (hi : i < (processRecord fs r).length)
        (hi' : i < r.contact.length),
        (processRecord fs r).get ⟨i, hi⟩ =
          { bgn_sel := atomSel r.bgn
            end_sel := atomSel r.end_
            interaction_type := contact_type_mapping (r.contact.get ⟨i, hi'⟩)
            dist_flag := distFlag r.contact
            original_type := r.contact.get ⟨i, hi'⟩
            distance := r.distance.getD 0 } := by
  have hnot : ¬(r.type ≠ some ("atom-atom".toList)) := fun hc => hc htype
  have hproc : processRecord fs r =
      r.contact.map (fun ct =>
        { bgn_sel := atomSel r.bgn
          end_sel := atomSel r.end_
          interaction_type := contact_type_mapping ct
          dist_flag := distFlag r.contact
          original_type := ct
          distance := r.distance.getD 0 }) := by
    unfold processRecord
    rw [if_neg hnot, hkept]
    simp
  constructor
  · rw [hproc, List.length_map]
  · intro i hi hi'
    simp only [hproc, List.get_eq_getElem, List.getElem_map]

/-- C7 witness: a concrete atom-atom record with three labels under no
filter yields three descriptors, the second of which carries the second
the mapped type of the second label. -/
theorem processRecord_one_descriptor_per_label_witness :
    (processRecord none
      { type := some ("atom-atom".toList)
        bgn := { auth_asym_id := some ("A".toList), auth_seq_id := some 25,
                 auth_atom_id := some ("N".toList) }
        end_ := { auth_asym_id := some ("B".toList), auth_seq_id := some 99,
                  auth_atom_id := some ("CA".toList) }
        contact := [("vdw_clash".toList), ("aromatic".toList), ("foo".toList)]
        distance := some 4 }).length = 3 :=
  (processRecord_one_descriptor_per_label none _ (by decide) (by decide)).1

/-- C8: with a truthy (non-empty) `filter_chain`, a record is kept iff one
of its endpoints matches on chain and residue together; with `filter_chain`
falsy, iff one endpoint matches on residue alone regardless of chain; with
no active selection every record is kept (endpoint chain and residue are
read with defaults `A` and `1`). -/
theorem recordKept_filter_semantics (fr : Int) (r : InteractionRecord) :
    recordKept none r = true
    ∧ (∀ c : PyStr, c ≠ [] →
        (recordKept (some (some c, fr)) r = true ↔
          ((r.bgn.auth_asym_id.getD ("A".toList) = c
              ∧ r.bgn.auth_seq_id.getD 1 = fr)
            ∨ (r.end_.auth_asym_id.getD ("A".toList) = c
              ∧ r.end_.auth_seq_id.getD 1 = fr))))
    ∧ (recordKept (some (none, fr)) r = true ↔
        (r.bgn.auth_seq_id.getD 1 = fr ∨ r.end_.auth_seq_id.getD 1 = fr)) := by
  refine ⟨rfl, ?_, ?_⟩
  · intro c hc
    simp [recordKept, sideMatches, hc]
  · simp [recordKept, sideMatches]

/-- C8 witness: a concrete record whose end endpoint sits on chain B
residue 7 is kept by the filter `(B, 7)`, is kept by the chainless filter
residue 7, and is kept when no selection is active. -/
theorem recordKept_filter_semantics_witness :
    recordKept none
      { type := some ("atom-atom".toList)
        bgn := { auth_asym_id := some ("A".toList), auth_seq_id := some 3,
                 auth_atom_id := none }
        end_ := { auth_asym_id := some ("B".toList), auth_seq_id := some 7,
                  auth_atom_id := none }
        contact := []
        distance := none } = true
    ∧ recordKept (some (some ("B".toList), 7))
      { type := some ("atom-atom".toList)
        bgn := { auth_asym_id := some ("A".toList), auth_seq_id := some 3,
                 auth_atom_id := none }
        end_ := { auth_asym_id := some ("B".toList), auth_seq_id := some 7,
                  auth_atom_id := none }
        contact := []
        distance := none } = true :=
  ⟨(recordKept_filter_semantics 7 _).1,
    ((recordKept_filter_semantics 7 _).2.1 ("B".toList) (by decide)).mpr
      (Or.inr (by constructor <;> rfl))⟩

theorem lookup_val_mem (l : List (PyStr × PyStr)) (ct v : PyStr)
    (h : l.lookup ct = some v) : ∃ p ∈ l, p.2 = v := by
  induction l with
  | nil => cases h
  | cons p l ih =>
    obtain ⟨k, b⟩ := p
    simp only [List.lookup] at h
    split at h
    · injection h with hbv
      exact ⟨(k, b), List.mem_cons_self _ _, hbv⟩
    · obtain ⟨q, hq, hv⟩ := ih h
      exact ⟨q, List.mem_cons_of_mem _ hq, hv⟩

theorem mem_processRecord_interaction_type
    (fs : Option (Option PyStr × Int)) (r : InteractionRecord)
    (c : ContactDescriptor) (hc : c ∈ processRecord fs r) :
    ∃ ct ∈ r.contact, c.interaction_type = contact_type_mapping ct := by
  unfold processRecord at hc
  split at hc
  · cases hc
  · split at hc
    · cases hc
    · rw [List.mem_map] at hc
      obtain ⟨ct, hct, rfl⟩ := hc
      exact ⟨ct, hct, rfl⟩

/-- C9: the `interaction_type` of every emitted descriptor lies in the fixed
range of the mapping extended with the `undefined` sentinel; an unknown raw
label maps to `undefined` and, with no active selection, extraction from
a present document never errors. -/
theorem interaction_type_always_allowed :
    (∀ ct : PyStr, contact_type_mapping ct ∈ allowedInteractionTypes)
    ∧ (∀ (source : Option (List InteractionRecord)) (sel : Option PyStr)
        (logs : List String) (cs : List ContactDescriptor),
        parse_json_contacts source sel = (logs, .ok cs) →
        ∀ c ∈ cs, c.interaction_type ∈ allowedInteractionTypes)
    ∧ contact_type_mapping ("foo".toList) = ("undefined".toList)
    ∧ (∀ data : List InteractionRecord,
        ∃ cs, (parse_json_contacts (some data) none).2 = .ok cs) := by
  have hvals : ∀ p ∈ contact_type_pairs, p.2 ∈ allowedInteractionTypes := by decide
  have hmap : ∀ ct : PyStr, contact_type_mapping ct ∈ allowedInteractionTypes := by
    intro ct
    unfold contact_type_mapping
    rcases h : contact_type_pairs.lookup ct with _ | v
    · decide
    · obtain ⟨q, hq, hv⟩ := lookup_val_mem contact_type_pairs ct v h
      simpa [hv] using hvals q hq
  refine ⟨hmap, ?_, by decide, ?_⟩
  · intro source sel logs cs hok c hc
    rcases source with _ | data
    · simp only [parse_json_contacts, Prod.mk.injEq] at hok
      injection hok.2 with h2
      rw [← h2] at hc
      cases hc
    · simp only [parse_json_contacts, Prod.mk.injEq] at hok
      rcases hpf : parseFilter sel with e | fs <;> rw [hpf] at hok
      · cases hok.2
      · injection hok.2 with h2
        rw [← h2] at hc
        rw [List.mem_flatMap] at hc
        obtain ⟨r, hr, hcr⟩ := hc
        obtain ⟨ct, hct, hty⟩ := mem_processRecord_interaction_type fs r c hcr
        rw [hty]
        exact hmap ct
  · intro data
    exact ⟨data.flatMap (processRecord none), rfl⟩

/-- C9 witness: a one-record document with the unknown label `"foo"` and no
selection extracts without error to a single descriptor whose
`interaction_type` is in the allowed enumeration (it is `undefined`). -/
theorem interaction_type_always_allowed_witness :
    ({ bgn_sel := ("chain A and resi 1 and name CA".toList)
       end_sel := ("chain A and resi 1 and name CA".toList)
       interaction_type := ("undefined".toList)
       dist_flag := ("proximal".toList)
       original_type := ("foo".toList)
       distance := 0 } : ContactDescriptor).interaction_type
      ∈ allowedInteractionTypes :=
  interaction_type_always_allowed.2.1
    (some [{ type := some ("atom-atom".toList)
             bgn := { auth_asym_id := none, auth_seq_id := none, auth_atom_id := none }
             end_ := { auth_asym_id := none, auth_seq_id := none, auth_atom_id := none }
             contact := [("foo".toList)]
             distance := none }])
    none [] _ (by rfl) _ (by decide)

/-- C10: filter matching and selector construction use the same field
defaults. An atom-atom record whose begin atom has no chain, residue or
atom-name field is treated as chain `A`, residue `1` during filtering, so
it is kept by the filter chain `A` + residue `1` and also by the chainless
filter residue `1`; its descriptors get the begin selector
`"chain A and resi 1 and name CA"` built from the same defaults, and a
missing `distance` field yields descriptors with distance `0.0`. -/
theorem filter_and_selector_share_defaults (r : InteractionRecord)
    (htype : r.type = some ("atom-atom".toList))
    (hbgn : r.bgn = { auth_asym_id := none, auth_seq_id := none, auth_atom_id := none })
    (hdist : r.distance = none) :
    recordKept (some (some ("A".toList), 1)) r = true
    ∧ recordKept (some (none, 1)) r = true
    ∧ ∀ c ∈ processRecord (some (some ("A".toList), 1)) r,
        c.bgn_sel = ("chain A and resi 1 and name CA".toList) ∧ c.distance = 0 := by
  have hkeptA : recordKept (some (some ("A".toList), 1)) r = true := by
    unfold recordKept sideMatches
    rw [hbgn]
    simp
  refine ⟨hkeptA, ?_, ?_⟩
  · unfold recordKept sideMatches
    rw [hbgn]
    simp
  · intro c hc
    unfold processRecord at hc
    rw [if_neg (fun hcon => hcon htype), hkeptA] at hc
    simp only [Bool.not_true, Bool.false_eq_true, if_false, List.mem_map] at hc
    obtain ⟨ct, hct, rfl⟩ := hc
    constructor
    · rw [hbgn]
      rfl
    · rw [hdist]
      rfl

/-- C10 witness: a concrete record with an all-defaulted begin atom and a
missing distance is kept by the filter `A:1` and produces the defaulted
selector and distance `0`. -/
theorem filter_and_selector_share_defaults_witness :
    recordKept (some (some ("A".toList), 1))
      { type := some ("atom-atom".toList)
        bgn := { auth_asym_id := none, auth_seq_id := none, auth_atom_id := none }
        end_ := { auth_asym_id := some ("B".toList), auth_seq_id := some 99,
                  auth_atom_id := some ("CB".toList) }
        contact := [("hbond".toList)]
        distance := none } = true :=
  (filter_and_selector_share_defaults _ (by decide) (by decide) (by decide)).1

theorem endsWithChar_concat_self (c : Char) (t : PyStr) :
    endsWithChar c (t ++ [c]) = true := by
  rw [endsWithChar]
  simp [List.reverse_append, startsWithChar]

/-- C2 (counterexample): the claim predicts that the slash-framed selection
`"//10/"` (empty chain component) parses to chain `"A"`, residue `"10"`,
but `strip('/')` collapses the doubled slash, the split yields the single
part `["10"]`, and the parser returns `(None, None)`. -/
theorem parse_selection_empty_chain_counterexample :
    parse_selection ("//10/".toList) = .ok (none, none)
    ∧ parse_selection ("//10/".toList)
      ≠ .ok (some ("A".toList), some ("10".toList)) := by
  refine ⟨rfl, fun h => ?_⟩
  rw [show parse_selection ("//10/".toList) = .ok (none, none) from rfl] at h
  injection h with h1
  injection h1 with h2 h3
  cases h2

/-- C2 (amended): for a slash-framed selection `/X/Y/` with `X` and `Y`
slash-free, the parser returns chain `X` and residue `Y` when both are
non-empty; when `X` or `Y` is empty, `strip('/')` swallows the adjacent
slash, the split has fewer than two parts, and the parser returns
`(None, None)` instead of defaulting the chain to `"A"`. -/
theorem parse_selection_slash_form (X Y : PyStr)
    (hXc : '/' ∉ X) (hYc : '/' ∉ Y) :
    (X ≠ [] → Y ≠ [] →
      parse_selection ('/' :: (X ++ '/' :: (Y ++ ['/']))) = .ok (some X, some Y))
    ∧ ((X = [] ∨ Y = []) →
      parse_selection ('/' :: (X ++ '/' :: (Y ++ ['/']))) = .ok (none, none)) := by
  have hshape : X ++ '/' :: (Y ++ ['/']) = (X ++ '/' :: Y) ++ ['/'] := by simp
  have hstart : startsWithChar '/' ('/' :: (X ++ '/' :: (Y ++ ['/']))) = true := by
    simp [startsWithChar]
  have hend : endsWithChar '/' ('/' :: (X ++ '/' :: (Y ++ ['/']))) = true := by
    rw [show ('/' :: (X ++ '/' :: (Y ++ ['/']))) = ('/' :: (X ++ '/' :: Y)) ++ ['/'] by simp]
    exact endsWithChar_concat_self '/' _
  constructor
  · intro hX hY
    have hs : pyStrip '/' ('/' :: (X ++ '/' :: (Y ++ ['/']))) = X ++ '/' :: Y :=
      pyStrip_frame X Y hX hXc hY hYc
    have hsplit : pySplit '/' (X ++ '/' :: Y) = [X, Y] := by
      rw [pySplit_append _ _ _ hXc, pySplit_not_mem _ _ hYc]
    unfold parse_selection
    rw [hstart, hend]
    simp only [Bool.and_self, if_true, hs, hsplit]
    simp [hX, hY]
  · rintro (rfl | rfl)
    · by_cases hY0 : Y = []
      · subst hY0
        rfl
      · have hs : pyStrip '/' ('/' :: ([] ++ '/' :: (Y ++ ['/']))) = Y :=
          pyStrip_frame_left_empty Y hY0 hYc
        unfold parse_selection
        rw [hstart, hend]
        simp only [Bool.and_self, if_true, hs, pySplit_not_mem '/' Y hYc]
        simp
    · by_cases hX0 : X = []
      · subst hX0
        rfl
      · have hs : pyStrip '/' ('/' :: (X ++ '/' :: ([] ++ ['/']))) = X :=
          pyStrip_frame_right_empty X hX0 hXc
        unfold parse_selection
        rw [hstart, hend]
        simp only [Bool.and_self, if_true, hs, pySplit_not_mem '/' X hXc]
        simp

/-- C2 amended witness: `/A/10/` parses to `("A", "10")`, and the
empty-chain form `//10/` parses to `(None, None)`. -/
theorem parse_selection_slash_form_witness :
    parse_selection ("/A/10/".toList) = .ok (some ("A".toList), some ("10".toList))
    ∧ parse_selection ("//10/".toList) = .ok (none, none) :=
  ⟨(parse_selection_slash_form ("A".toList) ("10".toList) (by decide) (by decide)).1
      (by decide) (by decide),
    (parse_selection_slash_form ([]) ("10".toList) (by decide) (by decide)).2
      (Or.inl rfl)⟩

/-- C3: a selection string of the form `X:Y` (colon-free `X`, `Y`) that is
taken by the colon branch (not slash-framed) parses to exactly `(X, Y)`;
any string taken by the colon branch whose `':'`-split does not have
exactly two parts makes the tuple unpacking raise `ValueError`. -/
theorem parse_selection_colon_form :
    (∀ X Y : PyStr, ':' ∉ X → ':' ∉ Y →
      (startsWithChar '/' (X ++ ':' :: Y) && endsWithChar '/' (X ++ ':' :: Y)) = false →
      parse_selection (X ++ ':' :: Y) = .ok (some X, some Y))
    ∧ (∀ s : PyStr,
      (startsWithChar '/' s && endsWithChar '/' s) = false → ':' ∈ s →
      (pySplit ':' s).length ≠ 2 →
      parse_selection s = .error ("ValueError: unpacking split result")) := by
  constructor
  · intro X Y hX hY hframe
    have hsplit : pySplit ':' (X ++ ':' :: Y) = [X, Y] := by
      rw [pySplit_append _ _ _ hX, pySplit_not_mem _ _ hY]
    have hmem : ':' ∈ X ++ ':' :: Y :=
      List.mem_append_right X (List.mem_cons_self _ _)
    unfold parse_selection
    rw [hframe]
    simp only [Bool.false_eq_true, if_false]
    rw [if_pos hmem, hsplit]
  · intro s hframe hmem hlen
    unfold parse_selection
    rw [hframe]
    simp only [Bool.false_eq_true, if_false]
    rw [if_pos hmem]
    rcases hsp : pySplit ':' s with _ | ⟨a, t⟩
    · rfl
    · rcases t with _ | ⟨b, t2⟩
      · rfl
      · rcases t2 with _ | ⟨c2, t3⟩
        · exact absurd (by rw [hsp]; rfl) hlen
        · rfl

/-- C3 witness: `A:10` parses to `("A", "10")` and `A:1:0` raises
`ValueError`. -/
theorem parse_selection_colon_form_witness :
    parse_selection ("A:10".toList) = .ok (some ("A".toList), some ("10".toList))
    ∧ parse_selection ("A:1:0".toList) = .error ("ValueError: unpacking split result") :=
  ⟨parse_selection_colon_form.1 ("A".toList) ("10".toList)
      (by decide) (by decide) (by decide),
    parse_selection_colon_form.2 ("A:1:0".toList) (by decide) (by decide) (by decide)⟩
